import Mathlib

/-!
# Verification of the products-api CRUD handlers

Shallow embedding of the serverless product CRUD handlers of this repository.
The repository contains three variants of the handler module:

* `src/handlers.ts` — embedded below in namespace `Handlers`.  Its
  `createProduct` calls the uuid generator `v4()` twice: once for the record
  placed in the response and once for the item written to the store.
* the first unnamed source file (yup-validated variant) — namespace `P0`.
  It validates bodies against a `yup` schema with `abortEarly: false` and
  translates `ValidationError`, `SyntaxError` and `HttpError` to responses.
* the second unnamed source file — namespace `P1`.  No validation; its
  `handleError` only translates `HttpError`, so parse errors propagate.

Modelling conventions:

* JSON values are the inductive `Json`; JavaScript numbers are modelled as
  rationals (`ℚ`).  `JSON.parse` is a platform builtin, so an incoming
  request carries the *outcome* of parsing: `Except String Json`, where
  `.error msg` stands for a thrown `SyntaxError` with message `msg`.
* The DynamoDB `DocumentClient` is external; it is modelled as an
  association list from `productId` strings to stored items, with
  `put` / `get` / `delete` / `scan` as in §4.2 of the design.
* The uuid source `v4()` is modelled by passing each generated id as an
  explicit argument; uuid freshness (non-empty, distinct from any
  client-supplied value) becomes a hypothesis where a claim relies on it.
* A handler invocation is `Store → Except JsErr (Response × Store)`:
  `.ok` is a returned HTTP response together with the store afterwards,
  `.error` is an exception that escaped the handler (an unhandled fault).
  Response headers are not modelled; no claim mentions them.
-/

/-- A JSON value as produced by `JSON.parse`.  Numbers are rationals
(JSON numerals are finite decimals; no claim performs float arithmetic). -/
inductive Json where
  | null
  | bool (b : Bool)
  | num (q : ℚ)
  | str (s : String)
  | arr (elems : List Json)
  | obj (fields : List (String × Json))
deriving Repr

/-- First binding of `key` in an association list.  `JSON.parse` produces
objects with pairwise distinct keys, so first-match lookup agrees with
JavaScript property access. -/
def lookupKey : List (String × Json) → String → Option Json
  | [], _ => none
  | (k, v) :: rest, key => if k = key then some v else lookupKey rest key

/-- JavaScript spread-update `{...o, key: v}` on the field list of an object:
an existing `key` keeps its position and receives the new value, a new `key`
is appended. -/
def setKey : List (String × Json) → String → Json → List (String × Json)
  | [], key, v => [(key, v)]
  | (k, w) :: rest, key, v =>
    if k = key then (key, v) :: rest else (k, w) :: setKey rest key v

/-- Own enumerable properties contributed by spreading a value: objects give
their fields, strings and arrays give index-keyed entries, primitives give
none. -/
def spreadFields : Json → List (String × Json)
  | .obj fs => fs
  | .str s => s.data.enum.map (fun p => (toString p.1, Json.str (String.singleton p.2)))
  | .arr xs => xs.enum.map (fun p => (toString p.1, p.2))
  | _ => []

/-- The object `{...j, key: v}`. -/
def spreadSet (j : Json) (key : String) (v : Json) : Json :=
  .obj (setKey (spreadFields j) key v)

/-! ## Number printing and the JavaScript string/number/boolean coercions -/

/-- Decimal rendering of a rational, matching JavaScript's rendering on the
finite decimals that `JSON.parse` can produce (integer part, `.`, fraction
digits without trailing zeros). -/
def ratToJsString (q : ℚ) : String :=
  if q.den = 1 then toString q.num
  else
    let a : ℚ := |q|
    match (List.range 64).find? (fun k => (a * (10 : ℚ) ^ k).den = 1) with
    | none => toString q.num ++ "/" ++ toString q.den
    | some k =>
      let m := (a * (10 : ℚ) ^ k).num.toNat
      let ip := m / 10 ^ k
      let fr := m % 10 ^ k
      let frs := toString fr
      let pad := String.mk (List.replicate (k - frs.length) '0')
      (if q < 0 then "-" else "") ++ toString ip ++ "." ++ pad ++ frs

mutual

/-- `String(value)` on a JSON value (array elements join with `","`, with
`null` elements rendering empty, as `Array.prototype.toString` does). -/
def jsToStringAux : Bool → Json → String
  | false, .null => "null"
  | true, .null => ""
  | _, .bool true => "true"
  | _, .bool false => "false"
  | _, .num q => ratToJsString q
  | _, .str s => s
  | _, .arr xs => joinElems xs
  | _, .obj _ => "[object Object]"

/-- Comma-join of array elements for `Array.prototype.toString`. -/
def joinElems : List Json → String
  | [] => ""
  | [x] => jsToStringAux true x
  | x :: y :: xs => jsToStringAux true x ++ "," ++ joinElems (y :: xs)

end

/-- `String(value)` at top level. -/
def jsToString (j : Json) : String := jsToStringAux false j

/-- Longest leading run of decimal digits. -/
def splitDigits : List Char → List Char × List Char
  | [] => ([], [])
  | c :: cs =>
    if c.isDigit then
      let p := splitDigits cs
      (c :: p.1, p.2)
    else ([], c :: cs)

/-- Value of a digit run. -/
def digitsToNat (cs : List Char) : Nat :=
  cs.foldl (fun a c => a * 10 + (c.toNat - 48)) 0

/-- Apply a parsed exponent part to a mantissa. -/
def applyExponent (mant : ℚ) (cs : List Char) : Option ℚ :=
  let p := match cs with
    | '-' :: r => (true, r)
    | '+' :: r => (false, r)
    | r => (false, r)
  let d := splitDigits p.2
  if d.1.isEmpty ∨ ¬ d.2.isEmpty then none
  else some (if p.1 then mant / (10 : ℚ) ^ digitsToNat d.1 else mant * (10 : ℚ) ^ digitsToNat d.1)

/-- Unsigned decimal numeral, optional fraction and exponent
(`digits`, `digits.digits`, `.digits`, `digits.`, each with optional
`e`/`E` exponent). -/
def parseUnsigned (cs : List Char) : Option ℚ :=
  let p1 := splitDigits cs
  let dotted := match p1.2 with
    | '.' :: r => some (splitDigits r)
    | _ => none
  let fp := match dotted with
    | some x => x.1
    | none => []
  let rest := match dotted with
    | some x => x.2
    | none => p1.2
  if p1.1.isEmpty ∧ fp.isEmpty then none
  else
    let mant : ℚ :=
      if fp.isEmpty then (digitsToNat p1.1 : ℚ)
      else (digitsToNat p1.1 : ℚ) + (digitsToNat fp : ℚ) / (10 : ℚ) ^ fp.length
    match rest with
    | [] => some mant
    | 'e' :: r => applyExponent mant r
    | 'E' :: r => applyExponent mant r
    | _ => none

/-- Hexadecimal digit for control-character escapes. -/
def hexDigitChar (n : Nat) : Char :=
  if n < 10 then Char.ofNat (48 + n) else Char.ofNat (87 + n)

/-- One character of a JSON string literal, with the escapes
`JSON.stringify` emits. -/
def escapeChar (c : Char) : String :=
  if c = '"' then "\\\""
  else if c = '\\' then "\\\\"
  else if c = '\n' then "\\n"
  else if c = '\r' then "\\r"
  else if c = '\t' then "\\t"
  else if c.toNat = 8 then "\\b"
  else if c.toNat = 12 then "\\f"
  else if c.toNat < 32 then
    "\\u00" ++ String.mk [hexDigitChar (c.toNat / 16), hexDigitChar (c.toNat % 16)]
  else String.singleton c

/-- A JSON string literal. -/
def escapeString (s : String) : String :=
  "\"" ++ String.join (s.data.map escapeChar) ++ "\""

/-- A JavaScript number as far as yup's number cast can produce one: finite
values (rationals) or the infinities that `ToNumber` yields on `Infinity`
numerals.  `NaN` is the absence of a value (`none` in `castNumber`). -/
inductive JsNum where
  | finite (q : ℚ)
  | posInf
  | negInf
deriving Repr, DecidableEq

/-- Value of one digit in base `b` (hexadecimal letters allowed). -/
def digitValBase (b : Nat) (c : Char) : Option Nat :=
  let v :=
    if c.isDigit then some (c.toNat - 48)
    else if 'a' ≤ c ∧ c ≤ 'f' then some (c.toNat - 87)
    else if 'A' ≤ c ∧ c ≤ 'F' then some (c.toNat - 55)
    else none
  match v with
  | some d => if d < b then some d else none
  | none => none

/-- A non-empty all-digits numeral in base `b` (the `0x`/`0o`/`0b` forms of
`ToNumber`, which admit no sign). -/
def parseRadix (b : Nat) : List Char → Option JsNum
  | [] => none
  | cs => (cs.foldlM (fun acc c => (digitValBase b c).map (fun d => acc * b + d)) 0).map
      (fun n => .finite (n : ℚ))

/-- Signed decimal numeral or `Infinity`, consuming the whole input (the
`StrDecimalLiteral` production of `ToNumber`). -/
def decimalOrInfinity (cs : List Char) : Option JsNum :=
  let p := match cs with
    | '-' :: r => (true, r)
    | '+' :: r => (false, r)
    | r => (false, r)
  if p.2 = "Infinity".data then some (if p.1 then .negInf else .posInf)
  else (parseUnsigned p.2).map (fun q => .finite (if p.1 then -q else q))

/-- JavaScript `ToNumber` on a whitespace-free character list: hexadecimal,
octal and binary integer literals (unsigned), or a signed decimal /
`Infinity`. -/
def toNumberChars (cs : List Char) : Option JsNum :=
  match cs with
  | '0' :: c :: r =>
    if c = 'x' ∨ c = 'X' then parseRadix 16 r
    else if c = 'o' ∨ c = 'O' then parseRadix 8 r
    else if c = 'b' ∨ c = 'B' then parseRadix 2 r
    else decimalOrInfinity cs
  | _ => decimalOrInfinity cs

/-- yup's number transform on strings: strip all whitespace
(`replace(/\s/g, '')`), turn the empty result into `NaN`, otherwise apply
`+string`, i.e. `ToNumber`.  `none` is `NaN`. -/
def yupStringToNumber (s : String) : Option JsNum :=
  let cs := s.data.filter (fun c => !c.isWhitespace)
  match cs with
  | [] => none
  | _ => toNumberChars cs

/-- Exponent suffix under `parseFloat`'s longest-valid-prefix rule: an
exponent marker without digits is ignored rather than failing. -/
def applyExpPrefix (mant : ℚ) (cs : List Char) : ℚ :=
  let p := match cs with
    | '-' :: r => (true, r)
    | '+' :: r => (false, r)
    | r => (false, r)
  let d := splitDigits p.2
  if d.1.isEmpty then mant
  else if p.1 then mant / (10 : ℚ) ^ digitsToNat d.1
  else mant * (10 : ℚ) ^ digitsToNat d.1

/-- JavaScript `parseFloat`: skip leading whitespace, then read the longest
prefix that is a signed decimal numeral or `Infinity`, ignoring anything
after it; no numeral prefix gives `NaN` (`none`).  `parseFloat` reads no
hexadecimal: `"0x10"` parses as `0`. -/
def parseFloatPrefix (s : String) : Option JsNum :=
  let cs := s.data.dropWhile (fun c => c.isWhitespace)
  let p := match cs with
    | '-' :: r => (true, r)
    | '+' :: r => (false, r)
    | r => (false, r)
  if "Infinity".data.isPrefixOf p.2 then some (if p.1 then .negInf else .posInf)
  else
    let d1 := splitDigits p.2
    let dotted := match d1.2 with
      | '.' :: r => some (splitDigits r)
      | _ => none
    let fp := match dotted with
      | some x => x.1
      | none => []
    let rest := match dotted with
      | some x => x.2
      | none => d1.2
    if d1.1.isEmpty ∧ fp.isEmpty then none
    else
      let mant : ℚ :=
        if fp.isEmpty then (digitsToNat d1.1 : ℚ)
        else (digitsToNat d1.1 : ℚ) + (digitsToNat fp : ℚ) / (10 : ℚ) ^ fp.length
      let q := match rest with
        | 'e' :: r => applyExpPrefix mant r
        | 'E' :: r => applyExpPrefix mant r
        | _ => mant
      some (.finite (if p.1 then -q else q))

/-- yup's number transform followed by its type check: numbers pass through;
strings are stripped of whitespace and go through `ToNumber` (empty string
is `NaN`); every other value falls back to `parseFloat(String(value))`.
The result must be a number other than `NaN`, so `none` means the value
fails the number type check. -/
def castNumber : Json → Option JsNum
  | .num q => some (.finite q)
  | .str s => yupStringToNumber s
  | v => parseFloatPrefix (jsToString v)

/-- ASCII lowercasing of one character (the case-insensitivity of yup's
boolean regular expressions is ASCII-only). -/
def asciiLower (c : Char) : Char :=
  if 'A' ≤ c ∧ c ≤ 'Z' then Char.ofNat (c.toNat + 32) else c

/-- yup's boolean transform followed by its type check: booleans pass
through; any other value `v` coerces when `String(v)` matches the anchored
case-insensitive patterns `true|1` or `false|0`, and is otherwise left
uncast, failing the boolean type check (`none`). -/
def castBoolean : Json → Option Bool
  | .bool b => some b
  | v =>
    let l := (jsToString v).data.map asciiLower
    if l = "true".data ∨ l = "1".data then some true
    else if l = "false".data ∨ l = "0".data then some false
    else none

/-! ## yup's `printValue` and default error messages -/

/-- yup's `printSimpleValue` on JSON values (strings quoted — unescaped —
when `quote`; arrays and objects are handled by the pretty printer). -/
def printSimpleValue (quote : Bool) : Json → Option String
  | .null => some "null"
  | .bool true => some "true"
  | .bool false => some "false"
  | .num q => some (ratToJsString q)
  | .str s => some (if quote then "\"" ++ s ++ "\"" else s)
  | _ => none

/-- An indentation run for `JSON.stringify`'s two-space pretty printing. -/
def indentSpaces (n : Nat) : String :=
  String.mk (List.replicate n ' ')

mutual

/-- `JSON.stringify(value, replacer, 2)` as `printValue` invokes it: the
replacer turns every simple value into its `printSimpleValue` string — which
the serializer then quotes and escapes — while arrays and objects print with
two-space indentation. -/
def prettyValue (quote : Bool) (ind : Nat) : Json → String
  | .arr [] => "[]"
  | .arr (x :: xs) =>
    "[\n" ++ prettyItems quote (ind + 2) (x :: xs) ++ "\n" ++ indentSpaces ind ++ "]"
  | .obj [] => "\x7b\x7d"
  | .obj (f :: fs) =>
    "\x7b\n" ++ prettyMembers quote (ind + 2) (f :: fs) ++ "\n" ++ indentSpaces ind ++ "\x7d"
  | v => escapeString ((printSimpleValue quote v).getD "")

/-- Indented, comma-and-newline separated array items. -/
def prettyItems (quote : Bool) (ind : Nat) : List Json → String
  | [] => ""
  | [x] => indentSpaces ind ++ prettyValue quote ind x
  | x :: y :: xs =>
    indentSpaces ind ++ prettyValue quote ind x ++ ",\n" ++ prettyItems quote ind (y :: xs)

/-- Indented, comma-and-newline separated object members. -/
def prettyMembers (quote : Bool) (ind : Nat) : List (String × Json) → String
  | [] => ""
  | [(k, v)] => indentSpaces ind ++ escapeString k ++ ": " ++ prettyValue quote ind v
  | (k, v) :: f :: fs =>
    indentSpaces ind ++ escapeString k ++ ": " ++ prettyValue quote ind v ++ ",\n" ++
      prettyMembers quote ind (f :: fs)

end

/-- yup's `printValue`: simple values print directly, arrays and objects via
the two-space-indented serialization above. -/
def printValue (quote : Bool) (v : Json) : String :=
  match printSimpleValue quote v with
  | some s => s
  | none => prettyValue quote 0 v

/-- yup's default `notType` message: the field path, the declared type, the
final (post-cast) value, a cast note when the cast changed the value, and
the `.nullable()` hint when the final value is `null`. -/
def notTypeMessage (path ty finalValue : String) (castFrom : Option String)
    (isNull : Bool) : String :=
  path ++ (" must be a `" ++ ty ++ "` type, but the final value was: `" ++ finalValue ++ "`" ++
    (match castFrom with
     | some o => " (cast from the value `" ++ o ++ "`)."
     | none => ".") ++
    (if isNull then
      "\n If \"null\" is intended as an empty value be sure to mark the schema as `.nullable()`"
    else ""))

/-! ## The yup schema

`yup.object().shape({ name: string().required(), description:
string().required(), price: number().required(), available:
boolean().required() })`, validated with `abortEarly: false` so every
field's violation is collected (and the collected list is sorted into
shape-key order).  Per field, yup casts, then runs the type check — whose
failure reports the `notType` message and short-circuits the remaining
tests, also for a `null` value — and only then `required`; a missing
(`undefined`) field skips the type check and fails `required`. -/

/-- Declared type of a schema field. -/
inductive FieldType where
  | fstring
  | fnumber
  | fboolean
deriving Repr, DecidableEq

/-- The four required product fields and their declared types. -/
def productSchema : List (String × FieldType) :=
  [("name", .fstring), ("description", .fstring),
   ("price", .fnumber), ("available", .fboolean)]

/-- Validation outcome for one field, following yup: a missing field fails
`required`; a present value is cast — string schemas cast numbers and
booleans via `toString` (never empty, so they also satisfy `required`) but
leave `null`, arrays and objects uncast; number and boolean schemas cast as
`castNumber` / `castBoolean` — a failing type check reports the `notType`
message (the number transform's failure value is always `NaN`; the boolean
and string transforms leave the failing value unchanged, so their messages
carry no cast note), and a present, well-typed but empty string fails the
string schema's `required`. -/
def fieldError (fields : List (String × Json)) : String × FieldType → Option String :=
  fun p =>
    match lookupKey fields p.1 with
    | none => some (p.1 ++ " is a required field")
    | some v =>
      match p.2 with
      | .fstring =>
        match v with
        | .str s => if s = "" then some (p.1 ++ " is a required field") else none
        | .num _ => none
        | .bool _ => none
        | .null => some (notTypeMessage p.1 "string" "null" none true)
        | .arr xs => some (notTypeMessage p.1 "string" (printValue true (.arr xs)) none false)
        | .obj fs => some (notTypeMessage p.1 "string" (printValue true (.obj fs)) none false)
      | .fnumber =>
        match castNumber v with
        | some _ => none
        | none =>
          match v with
          | .null => some (notTypeMessage p.1 "number" "NaN" none false)
          | _ => some (notTypeMessage p.1 "number" "NaN" (some (printValue true v)) false)
      | .fboolean =>
        match castBoolean v with
        | some _ => none
        | none =>
          match v with
          | .null => some (notTypeMessage p.1 "boolean" "null" none true)
          | _ => some (notTypeMessage p.1 "boolean" (printValue true v) none false)

/-- All violations collected by
`schema.validate(body, { abortEarly: false })`: `[]` means the body
validates.  A non-object body is cast to `null` by the object schema's
transform and fails its type check with the object `notType` message (yup
would first attempt to `JSON.parse` a *string* body into an object; that
re-parse is not modelled — no handler or claim reaches validation with a
string that encodes an object). -/
def validateErrors : Json → List String
  | .obj fields => productSchema.filterMap (fieldError fields)
  | .null => [notTypeMessage "this" "object" "null" none true]
  | v => [notTypeMessage "this" "object" "null" (some (printValue true v)) true]

/-! ## JSON.stringify -/

mutual

/-- `JSON.stringify` on a JSON value. -/
def Json.stringify : Json → String
  | .null => "null"
  | .bool true => "true"
  | .bool false => "false"
  | .num q => ratToJsString q
  | .str s => escapeString s
  | .arr xs => "[" ++ stringifyElems xs ++ "]"
  | .obj fs => "\x7b" ++ stringifyFields fs ++ "\x7d"

/-- Comma-separated serialization of array elements. -/
def stringifyElems : List Json → String
  | [] => ""
  | [x] => Json.stringify x
  | x :: y :: xs => Json.stringify x ++ "," ++ stringifyElems (y :: xs)

/-- Comma-separated serialization of object members. -/
def stringifyFields : List (String × Json) → String
  | [] => ""
  | [(k, v)] => escapeString k ++ ":" ++ Json.stringify v
  | (k, v) :: f :: fs => escapeString k ++ ":" ++ Json.stringify v ++ "," ++ stringifyFields (f :: fs)

end

/-! ## The record store (DynamoDB DocumentClient over `ProductsTable`) -/

/-- The `ProductsTable`: `productId` keys mapped to stored items. -/
abbrev Store := List (String × Json)

/-- `docClient.get({ Key: { productId: id } })` — `none` models an absent
`output.Item`. -/
def storeGet (store : Store) (id : String) : Option Json :=
  lookupKey store id

/-- Overwrite-or-insert at a key. -/
def storePut (store : Store) (id : String) (item : Json) : Store :=
  setKey store id item

/-- `docClient.delete({ Key: { productId: id } })` — idempotent removal. -/
def storeDelete (store : Store) (id : String) : Store :=
  store.filter (fun kv => kv.1 != id)

/-- `docClient.scan({ TableName })` — every stored item. -/
def storeScan (store : Store) : List Json :=
  store.map (fun kv => kv.2)

/-! ## Exceptions and responses -/

/-- A thrown JavaScript exception, as the handlers distinguish them:
`synErr` is a `SyntaxError` from `JSON.parse`, `valErr` a
`yup.ValidationError` carrying its `errors` list, `httpErr` an `HttpError`
whose `message` is the stringified body, `storeFault` an error raised by the
store client. -/
inductive JsErr where
  | synErr (msg : String)
  | valErr (errors : List String)
  | httpErr (statusCody : Nat) (body : String)
  | storeFault (msg : String)
deriving Repr, DecidableEq

/-- An `APIGatewayProxyResult` (status code and serialized body; headers are
not modelled). -/
structure Response where
  statusCode : Nat
  body : String
deriving Repr, DecidableEq

/-- An incoming `APIGatewayProxyEvent`: the outcome of `JSON.parse` on its
`body` (`.error msg` is a `SyntaxError` with message `msg`) and
`pathParameters.id`. -/
structure Event where
  body : Except String Json
  pathId : String

/-- A handler invocation: either a returned response with the store after the
call, or an exception that escaped the handler (unhandled fault). -/
abbrev HandlerResult := Except JsErr (Response × Store)

/-- `JSON.stringify({ error: "Product not found" })`. -/
def notFoundBody : String :=
  Json.stringify (.obj [("error", .str "Product not found")])

/-- `docClient.put({ Item: item })`: the item is stored under its
`productId` attribute; an item without a string `productId` key is rejected
by DynamoDB (a store fault).  The handlers always set `productId` before
putting. -/
def dynamoPut (store : Store) (item : Json) : Except JsErr Store :=
  match item with
  | .obj fields =>
    match lookupKey fields "productId" with
    | some (.str id) => .ok (storePut store id item)
    | _ => .error (.storeFault "One of the required keys was not given a value")
  | _ => .error (.storeFault "Expected params.Item to be a structure")

/-- `JSON.parse(event.body)` inside a handler: an `.error` outcome is the
thrown `SyntaxError`. -/
def parseBody (event : Event) : Except JsErr Json :=
  match event.body with
  | .ok j => .ok j
  | .error m => .error (.synErr m)

/-- Finish a `try { ... } catch (error) { return handleError(error) }` block:
a caught exception is mapped by `h`; when `h` rethrows, the fault escapes.
All throws happen before any successful write, so the paired store is the
handler's input store. -/
def handleErrorsWith (h : JsErr → Except JsErr Response) (store : Store)
    (r : Except JsErr (Response × Store)) : HandlerResult :=
  match r with
  | .ok x => .ok x
  | .error e =>
    match h e with
    | .ok resp => .ok (resp, store)
    | .error e2 => .error e2

namespace P0

/-!  The yup-validated variant (first unnamed source file). -/

/-- `fetchProductById`: read the item, throwing
`HttpError(404, { error: "Product not found" })` when absent. -/
def fetchProductById (store : Store) (id : String) : Except JsErr Json :=
  match storeGet store id with
  | some item => .ok item
  | none => .error (.httpErr 404 notFoundBody)

/-- `handleError`: `ValidationError ↦ 400 {errors}`,
`SyntaxError ↦ 400 {error: "Invalid request body format: …"}`,
`HttpError ↦ its status and message`; anything else is rethrown. -/
def handleError : JsErr → Except JsErr Response
  | .valErr errs =>
    .ok { statusCode := 400,
          body := Json.stringify (.obj [("errors", .arr (errs.map Json.str))]) }
  | .synErr m =>
    .ok { statusCode := 400,
          body := Json.stringify (.obj [("error", .str ("Invalid request body format: " ++ m))]) }
  | .httpErr code body => .ok { statusCode := code, body := body }
  | e => .error e

/-- `createProduct`: parse, validate (collecting all violations), build
`{...reqBody, productId: v4()}` with the generated id `g`, put, 200. -/
def createProduct (g : String) (event : Event) (store : Store) : HandlerResult :=
  handleErrorsWith handleError store (
    match event.body with
    | .error m => .error (.synErr m)
    | .ok reqBody =>
      match validateErrors reqBody with
      | e :: es => .error (.valErr (e :: es))
      | [] =>
        let product := spreadSet reqBody "productId" (.str g)
        match dynamoPut store product with
        | .error e => .error e
        | .ok store2 =>
          .ok ({ statusCode := 200, body := Json.stringify product }, store2))

/-- `getProduct`: fetch by path id, 200 with the item. -/
def getProduct (event : Event) (store : Store) : HandlerResult :=
  handleErrorsWith handleError store (
    match fetchProductById store event.pathId with
    | .error e => .error e
    | .ok product =>
      .ok ({ statusCode := 200, body := Json.stringify product }, store))

/-- `updateProduct`: existence check, parse, validate, build
`{...reqBody, productId: id}`, put, 200. -/
def updateProduct (event : Event) (store : Store) : HandlerResult :=
  handleErrorsWith handleError store (
    match fetchProductById store event.pathId with
    | .error e => .error e
    | .ok _ =>
      match event.body with
      | .error m => .error (.synErr m)
      | .ok reqBody =>
        match validateErrors reqBody with
        | e :: es => .error (.valErr (e :: es))
        | [] =>
          let product := spreadSet reqBody "productId" (.str event.pathId)
          match dynamoPut store product with
          | .error e => .error e
          | .ok store2 =>
            .ok ({ statusCode := 200, body := Json.stringify product }, store2))

/-- `deleteProduct`: existence check, delete, 204 with empty body. -/
def deleteProduct (event : Event) (store : Store) : HandlerResult :=
  handleErrorsWith handleError store (
    match fetchProductById store event.pathId with
    | .error e => .error e
    | .ok _ =>
      .ok ({ statusCode := 204, body := "" }, storeDelete store event.pathId))

/-- `listProduct`: scan, 200 with every item (no try/catch). -/
def listProduct (_event : Event) (store : Store) : HandlerResult :=
  .ok ({ statusCode := 200, body := Json.stringify (.arr (storeScan store)) }, store)

end P0

namespace P1

/-!  The unvalidated variant (second unnamed source file): no schema, and
`handleError` only translates `HttpError`. -/

/-- `fetchProductById` (identical to the `P0` one). -/
def fetchProductById (store : Store) (id : String) : Except JsErr Json :=
  match storeGet store id with
  | some item => .ok item
  | none => .error (.httpErr 404 notFoundBody)

/-- `handleError`: only `HttpError` is translated; anything else (including
`SyntaxError`) is rethrown. -/
def handleError : JsErr → Except JsErr Response
  | .httpErr code body => .ok { statusCode := code, body := body }
  | e => .error e

/-- `createProduct`: no try/catch and no validation; a parse error escapes. -/
def createProduct (g : String) (event : Event) (store : Store) : HandlerResult :=
  match event.body with
  | .error m => .error (.synErr m)
  | .ok reqBody =>
    let product := spreadSet reqBody "productId" (.str g)
    match dynamoPut store product with
    | .error e => .error e
    | .ok store2 =>
      .ok ({ statusCode := 200, body := Json.stringify product }, store2)

/-- `getProduct`: fetch by path id, 200 with the item. -/
def getProduct (event : Event) (store : Store) : HandlerResult :=
  handleErrorsWith handleError store (
    match fetchProductById store event.pathId with
    | .error e => .error e
    | .ok product =>
      .ok ({ statusCode := 200, body := Json.stringify product }, store))

/-- `updateProduct`: existence check, parse (a `SyntaxError` here is rethrown
by `handleError`), build `{...reqBody, productId: id}`, put, 200. -/
def updateProduct (event : Event) (store : Store) : HandlerResult :=
  handleErrorsWith handleError store (
    match fetchProductById store event.pathId with
    | .error e => .error e
    | .ok _ =>
      match event.body with
      | .error m => .error (.synErr m)
      | .ok reqBody =>
        let product := spreadSet reqBody "productId" (.str event.pathId)
        match dynamoPut store product with
        | .error e => .error e
        | .ok store2 =>
          .ok ({ statusCode := 200, body := Json.stringify product }, store2))

/-- `deleteProduct`: existence check, delete, 204 with empty body. -/
def deleteProduct (event : Event) (store : Store) : HandlerResult :=
  handleErrorsWith handleError store (
    match fetchProductById store event.pathId with
    | .error e => .error e
    | .ok _ =>
      .ok ({ statusCode := 204, body := "" }, storeDelete store event.pathId))

/-- `listProduct`: scan, 200 with every item. -/
def listProduct (_event : Event) (store : Store) : HandlerResult :=
  .ok ({ statusCode := 200, body := Json.stringify (.arr (storeScan store)) }, store)

end P1

namespace Handlers

/-!  `src/handlers.ts`: no validation, no try/catch, and `createProduct`
calls `v4()` twice — `g1` goes into the response record, `g2` into the
stored item. -/

/-- `createProduct`: the response body serializes `{...reqBody, productId:
g1}` while the item written to the store is `{...reqBody, productId: g2}`. -/
def createProduct (g1 g2 : String) (event : Event) (store : Store) : HandlerResult :=
  match event.body with
  | .error m => .error (.synErr m)
  | .ok reqBody =>
    let product := spreadSet reqBody "productId" (.str g1)
    let item := spreadSet reqBody "productId" (.str g2)
    match dynamoPut store item with
    | .error e => .error e
    | .ok store2 =>
      .ok ({ statusCode := 200, body := Json.stringify product }, store2)

/-- `getProduct`: read by path id; absent item gives
`404 {"error":"Product not found"}`, present item gives 200. -/
def getProduct (event : Event) (store : Store) : HandlerResult :=
  match storeGet store event.pathId with
  | none => .ok ({ statusCode := 404, body := notFoundBody }, store)
  | some item => .ok ({ statusCode := 200, body := Json.stringify item }, store)

end Handlers

/-! ## Store lemmas -/

theorem lookupKey_setKey_self (l : List (String × Json)) (key : String) (v : Json) :
    lookupKey (setKey l key v) key = some v := by
  induction l with
  | nil => simp [setKey, lookupKey]
  | cons kv rest ih =>
    by_cases h : kv.1 = key
    · simp [setKey, h, lookupKey]
    · simp [setKey, h, lookupKey, ih]

theorem lookupKey_setKey_ne (l : List (String × Json)) (key k : String) (v : Json)
    (h : k ≠ key) : lookupKey (setKey l key v) k = lookupKey l k := by
  induction l with
  | nil => simp [setKey, lookupKey, Ne.symm h]
  | cons kv rest ih =>
    by_cases hk : kv.1 = key
    · simp [setKey, hk, lookupKey, Ne.symm h]
    · simp [setKey, hk, lookupKey, ih]

theorem lookupKey_filter_ne_self (l : List (String × Json)) (id : String) :
    lookupKey (l.filter (fun kv => kv.1 != id)) id = none := by
  induction l with
  | nil => simp [lookupKey]
  | cons kv rest ih =>
    by_cases h : kv.1 = id
    · simp [List.filter_cons, h, ih]
    · simp [List.filter_cons, bne_iff_ne, h, lookupKey, ih]


/-! ## Claim theorems -/

/-- C7: For every id with no record in the store, Get with that id returns
status 404 with response body exactly `{"error":"Product not found"}` — in
all three variants of `getProduct`. -/
theorem get_missing_id_yields_404 (ev : Event) (store : Store)
    (h : storeGet store ev.pathId = none) :
    P0.getProduct ev store =
      .ok ({ statusCode := 404, body := "\x7b\"error\":\"Product not found\"\x7d" }, store) ∧
    P1.getProduct ev store =
      .ok ({ statusCode := 404, body := "\x7b\"error\":\"Product not found\"\x7d" }, store) ∧
    Handlers.getProduct ev store =
      .ok ({ statusCode := 404, body := "\x7b\"error\":\"Product not found\"\x7d" }, store) := by
  have hb : notFoundBody = "\x7b\"error\":\"Product not found\"\x7d" := by decide
  refine ⟨?_, ?_, ?_⟩ <;>
    simp [P0.getProduct, P1.getProduct, Handlers.getProduct, P0.fetchProductById,
      P1.fetchProductById, h, handleErrorsWith, P0.handleError, P1.handleError, hb]

/-- Witness for C7 at the empty store and id `"missing"`. -/
theorem get_missing_id_yields_404_witness :
    P0.getProduct { body := .error "no body", pathId := "missing" } [] =
      .ok ({ statusCode := 404, body := "\x7b\"error\":\"Product not found\"\x7d" }, []) ∧
    P1.getProduct { body := .error "no body", pathId := "missing" } [] =
      .ok ({ statusCode := 404, body := "\x7b\"error\":\"Product not found\"\x7d" }, []) ∧
    Handlers.getProduct { body := .error "no body", pathId := "missing" } [] =
      .ok ({ statusCode := 404, body := "\x7b\"error\":\"Product not found\"\x7d" }, []) :=
  get_missing_id_yields_404 { body := .error "no body", pathId := "missing" } [] rfl

/-- C9: Get and List never modify the store: in every variant they return a
response paired with exactly the input store, for every event and store. -/
theorem get_and_list_never_write (ev : Event) (store : Store) :
    (∃ r, P0.getProduct ev store = .ok (r, store)) ∧
    (∃ r, P1.getProduct ev store = .ok (r, store)) ∧
    (∃ r, Handlers.getProduct ev store = .ok (r, store)) ∧
    (∃ r, P0.listProduct ev store = .ok (r, store)) ∧
    (∃ r, P1.listProduct ev store = .ok (r, store)) := by
  refine ⟨?_, ?_, ?_, ⟨_, rfl⟩, ⟨_, rfl⟩⟩ <;>
  · cases h : storeGet store ev.pathId with
    | none =>
      exact ⟨{ statusCode := 404, body := notFoundBody }, by
        simp [P0.getProduct, P1.getProduct, Handlers.getProduct, P0.fetchProductById,
          P1.fetchProductById, h, handleErrorsWith, P0.handleError, P1.handleError]⟩
    | some item =>
      exact ⟨{ statusCode := 200, body := item.stringify }, by
        simp [P0.getProduct, P1.getProduct, Handlers.getProduct, P0.fetchProductById,
          P1.fetchProductById, h, handleErrorsWith]⟩

/-- C5: Update on an id with no record returns 404 and leaves the store
completely unchanged, in both variants that define `updateProduct`. -/
theorem update_missing_id_404_no_write (ev : Event) (store : Store)
    (h : storeGet store ev.pathId = none) :
    P0.updateProduct ev store = .ok ({ statusCode := 404, body := notFoundBody }, store) ∧
    P1.updateProduct ev store = .ok ({ statusCode := 404, body := notFoundBody }, store) := by
  constructor <;>
    simp [P0.updateProduct, P1.updateProduct, P0.fetchProductById, P1.fetchProductById,
      h, handleErrorsWith, P0.handleError, P1.handleError]

/-- Witness for C5 at a non-empty store missing the id `"absent"`. -/
theorem update_missing_id_404_no_write_witness :
    P0.updateProduct { body := .ok (.obj []), pathId := "absent" }
        [("other", .obj [("productId", .str "other")])] =
      .ok ({ statusCode := 404, body := notFoundBody },
           [("other", .obj [("productId", .str "other")])]) ∧
    P1.updateProduct { body := .ok (.obj []), pathId := "absent" }
        [("other", .obj [("productId", .str "other")])] =
      .ok ({ statusCode := 404, body := notFoundBody },
           [("other", .obj [("productId", .str "other")])]) :=
  update_missing_id_404_no_write { body := .ok (.obj []), pathId := "absent" }
    [("other", .obj [("productId", .str "other")])] rfl

/-- C8: Delete on an id that has a record removes it — a subsequent Get on
that id yields 404 — and responds 204 with an empty body, in both variants
that define `deleteProduct`. -/
theorem delete_existing_removes_record (ev : Event) (store : Store) (item : Json)
    (h : storeGet store ev.pathId = some item) :
    P0.deleteProduct ev store =
      .ok ({ statusCode := 204, body := "" }, storeDelete store ev.pathId) ∧
    P1.deleteProduct ev store =
      .ok ({ statusCode := 204, body := "" }, storeDelete store ev.pathId) ∧
    storeGet (storeDelete store ev.pathId) ev.pathId = none ∧
    P0.getProduct ev (storeDelete store ev.pathId) =
      .ok ({ statusCode := 404, body := notFoundBody }, storeDelete store ev.pathId) := by
  have hdel : storeGet (storeDelete store ev.pathId) ev.pathId = none :=
    lookupKey_filter_ne_self store ev.pathId
  refine ⟨?_, ?_, hdel, ?_⟩ <;>
    simp [P0.deleteProduct, P1.deleteProduct, P0.getProduct, P0.fetchProductById,
      P1.fetchProductById, h, hdel, handleErrorsWith, P0.handleError, P1.handleError]

/-- Witness for C8 at a two-record store, deleting id `"p1"`. -/
theorem delete_existing_removes_record_witness :
    P0.deleteProduct { body := .error "no body", pathId := "p1" }
        [("p1", .obj [("productId", .str "p1")]), ("p2", .obj [("productId", .str "p2")])] =
      .ok ({ statusCode := 204, body := "" }, [("p2", .obj [("productId", .str "p2")])]) ∧
    P1.deleteProduct { body := .error "no body", pathId := "p1" }
        [("p1", .obj [("productId", .str "p1")]), ("p2", .obj [("productId", .str "p2")])] =
      .ok ({ statusCode := 204, body := "" }, [("p2", .obj [("productId", .str "p2")])]) ∧
    storeGet [("p2", .obj [("productId", .str "p2")])] "p1" = none ∧
    P0.getProduct { body := .error "no body", pathId := "p1" }
        [("p2", .obj [("productId", .str "p2")])] =
      .ok ({ statusCode := 404, body := notFoundBody }, [("p2", .obj [("productId", .str "p2")])]) :=
  delete_existing_removes_record { body := .error "no body", pathId := "p1" }
    [("p1", .obj [("productId", .str "p1")]), ("p2", .obj [("productId", .str "p2")])]
    (.obj [("productId", .str "p1")]) rfl

/-- C6: Update on an existing id with a valid body stores
`{...body, productId: id}` — every non-`productId` field keeps the body's
value, any client-supplied `productId` is overwritten by the path id — and a
subsequent Get on that id returns status 200 with exactly that record.
Proved for the validated variant (`P0`) and the unvalidated one (`P1`). -/
theorem update_replaces_fields_get_returns_new (ev : Event) (store : Store)
    (fields : List (String × Json)) (item : Json)
    (hid : storeGet store ev.pathId = some item)
    (hb : ev.body = .ok (.obj fields))
    (hvalid : validateErrors (.obj fields) = []) :
    P0.updateProduct ev store =
      .ok ({ statusCode := 200,
             body := Json.stringify (.obj (setKey fields "productId" (.str ev.pathId))) },
           storePut store ev.pathId (.obj (setKey fields "productId" (.str ev.pathId)))) ∧
    P1.updateProduct ev store =
      .ok ({ statusCode := 200,
             body := Json.stringify (.obj (setKey fields "productId" (.str ev.pathId))) },
           storePut store ev.pathId (.obj (setKey fields "productId" (.str ev.pathId)))) ∧
    lookupKey (setKey fields "productId" (.str ev.pathId)) "productId" =
      some (.str ev.pathId) ∧
    (∀ k, k ≠ "productId" →
      lookupKey (setKey fields "productId" (.str ev.pathId)) k = lookupKey fields k) ∧
    P0.getProduct ev (storePut store ev.pathId (.obj (setKey fields "productId" (.str ev.pathId)))) =
      .ok ({ statusCode := 200,
             body := Json.stringify (.obj (setKey fields "productId" (.str ev.pathId))) },
           storePut store ev.pathId (.obj (setKey fields "productId" (.str ev.pathId)))) := by
  refine ⟨?_, ?_, lookupKey_setKey_self fields "productId" (.str ev.pathId),
    fun k hk => lookupKey_setKey_ne fields "productId" k (.str ev.pathId) hk, ?_⟩
  · simp [P0.updateProduct, P0.fetchProductById, hid, hb, hvalid, spreadSet, spreadFields,
      dynamoPut, lookupKey_setKey_self, handleErrorsWith]
  · simp [P1.updateProduct, P1.fetchProductById, hid, hb, spreadSet, spreadFields,
      dynamoPut, lookupKey_setKey_self, handleErrorsWith]
  · simp [P0.getProduct, P0.fetchProductById, storeGet, storePut,
      lookupKey_setKey_self, handleErrorsWith]

/-- Witness for C6: updating id `"p1"` with a valid body that also smuggles a
client `productId`. -/
theorem update_replaces_fields_get_returns_new_witness :
    P0.updateProduct
        { body := .ok (.obj [("name", .str "Desk"), ("description", .str "Oak desk"),
            ("price", .num 120), ("available", .bool false), ("productId", .str "evil")]),
          pathId := "p1" }
        [("p1", .obj [("name", .str "Old"), ("productId", .str "p1")])] =
      .ok ({ statusCode := 200,
             body := Json.stringify (.obj [("name", .str "Desk"), ("description", .str "Oak desk"),
               ("price", .num 120), ("available", .bool false), ("productId", .str "p1")]) },
           [("p1", .obj [("name", .str "Desk"), ("description", .str "Oak desk"),
               ("price", .num 120), ("available", .bool false), ("productId", .str "p1")])]) ∧
    P1.updateProduct
        { body := .ok (.obj [("name", .str "Desk"), ("description", .str "Oak desk"),
            ("price", .num 120), ("available", .bool false), ("productId", .str "evil")]),
          pathId := "p1" }
        [("p1", .obj [("name", .str "Old"), ("productId", .str "p1")])] =
      .ok ({ statusCode := 200,
             body := Json.stringify (.obj [("name", .str "Desk"), ("description", .str "Oak desk"),
               ("price", .num 120), ("available", .bool false), ("productId", .str "p1")]) },
           [("p1", .obj [("name", .str "Desk"), ("description", .str "Oak desk"),
               ("price", .num 120), ("available", .bool false), ("productId", .str "p1")])]) :=
  by
  have h := update_replaces_fields_get_returns_new
    { body := .ok (.obj [("name", .str "Desk"), ("description", .str "Oak desk"),
        ("price", .num 120), ("available", .bool false), ("productId", .str "evil")]),
      pathId := "p1" }
    [("p1", .obj [("name", .str "Old"), ("productId", .str "p1")])]
    [("name", .str "Desk"), ("description", .str "Oak desk"),
     ("price", .num 120), ("available", .bool false), ("productId", .str "evil")]
    (.obj [("name", .str "Old"), ("productId", .str "p1")]) rfl rfl (by decide)
  exact ⟨h.1, h.2.1⟩

/-- C2: For every valid Create input, the record returned by Create carries
`productId` equal to the server-generated id `g` — overwriting any
client-supplied `productId` — so it is a non-empty string (uuids are
non-empty) and differs from every client-supplied value (uuids are fresh;
both uuid properties enter as hypotheses `hg` and `hfresh`).  Proved for all
three `createProduct` variants (the `Handlers` variant returns the record
built from its first generated id `g` while storing under `g2`). -/
theorem create_returns_fresh_server_id (g g2 : String) (ev : Event) (store : Store)
    (fields : List (String × Json))
    (hb : ev.body = .ok (.obj fields))
    (hvalid : validateErrors (.obj fields) = [])
    (hg : g ≠ "")
    (hfresh : ∀ v, lookupKey fields "productId" = some v → v ≠ .str g) :
    P0.createProduct g ev store =
      .ok ({ statusCode := 200,
             body := Json.stringify (.obj (setKey fields "productId" (.str g))) },
           storePut store g (.obj (setKey fields "productId" (.str g)))) ∧
    P1.createProduct g ev store =
      .ok ({ statusCode := 200,
             body := Json.stringify (.obj (setKey fields "productId" (.str g))) },
           storePut store g (.obj (setKey fields "productId" (.str g)))) ∧
    Handlers.createProduct g g2 ev store =
      .ok ({ statusCode := 200,
             body := Json.stringify (.obj (setKey fields "productId" (.str g))) },
           storePut store g2 (.obj (setKey fields "productId" (.str g2)))) ∧
    lookupKey (setKey fields "productId" (.str g)) "productId" = some (.str g) ∧
    g ≠ "" ∧
    (∀ v, lookupKey fields "productId" = some v →
      lookupKey (setKey fields "productId" (.str g)) "productId" ≠ some v) := by
  refine ⟨?_, ?_, ?_, lookupKey_setKey_self fields "productId" (.str g), hg, ?_⟩
  · simp [P0.createProduct, hb, hvalid, spreadSet, spreadFields, dynamoPut,
      lookupKey_setKey_self, handleErrorsWith]
  · simp [P1.createProduct, hb, spreadSet, spreadFields, dynamoPut,
      lookupKey_setKey_self, handleErrorsWith]
  · simp [Handlers.createProduct, hb, spreadSet, spreadFields, dynamoPut,
      lookupKey_setKey_self, handleErrorsWith]
  · intro v hv hcontra
    rw [lookupKey_setKey_self] at hcontra
    exact hfresh v hv (Option.some.inj hcontra).symm

/-- Witness for C2: a valid body that supplies its own `productId`. -/
theorem create_returns_fresh_server_id_witness :
    P0.createProduct "server-uuid" { body := .ok (.obj [("name", .str "Pen"),
        ("description", .str "Blue pen"), ("price", .num 2), ("available", .bool true),
        ("productId", .str "client-id")]), pathId := "" } [] =
      .ok ({ statusCode := 200,
             body := Json.stringify (.obj [("name", .str "Pen"), ("description", .str "Blue pen"),
               ("price", .num 2), ("available", .bool true), ("productId", .str "server-uuid")]) },
           [("server-uuid", .obj [("name", .str "Pen"), ("description", .str "Blue pen"),
               ("price", .num 2), ("available", .bool true), ("productId", .str "server-uuid")])]) ∧
    lookupKey [("name", Json.str "Pen"), ("description", Json.str "Blue pen"),
        ("price", Json.num 2), ("available", Json.bool true),
        ("productId", Json.str "server-uuid")] "productId" = some (.str "server-uuid") := by
  have h := create_returns_fresh_server_id "server-uuid" "g2"
    { body := .ok (.obj [("name", .str "Pen"), ("description", .str "Blue pen"),
        ("price", .num 2), ("available", .bool true), ("productId", .str "client-id")]),
      pathId := "" } []
    [("name", .str "Pen"), ("description", .str "Blue pen"), ("price", .num 2),
     ("available", .bool true), ("productId", .str "client-id")]
    rfl (by decide) (by decide)
    (by
      intro v hv
      cases Option.some.inj hv
      intro heq
      exact absurd (Json.str.inj heq) (by decide))
  exact ⟨h.1, h.2.2.2.1⟩

/-- C10: Create and Update spread the whole parsed body into the persisted
item: a property `k` outside the schema (any `k` other than `productId`)
keeps its body value `v` in the stored item, and the response body
serializes exactly that item.  Proved for `P0.createProduct`,
`P0.updateProduct` and `P1.updateProduct`. -/
theorem extra_body_fields_preserved (g : String) (ev : Event) (store : Store)
    (fields : List (String × Json)) (item : Json) (k : String) (v : Json)
    (hb : ev.body = .ok (.obj fields))
    (hvalid : validateErrors (.obj fields) = [])
    (hid : storeGet store ev.pathId = some item)
    (hk : k ≠ "productId")
    (hkv : lookupKey fields k = some v) :
    (P0.createProduct g ev store =
      .ok ({ statusCode := 200,
             body := Json.stringify (.obj (setKey fields "productId" (.str g))) },
           storePut store g (.obj (setKey fields "productId" (.str g)))) ∧
     lookupKey (setKey fields "productId" (.str g)) k = some v) ∧
    (P0.updateProduct ev store =
      .ok ({ statusCode := 200,
             body := Json.stringify (.obj (setKey fields "productId" (.str ev.pathId))) },
           storePut store ev.pathId (.obj (setKey fields "productId" (.str ev.pathId)))) ∧
     lookupKey (setKey fields "productId" (.str ev.pathId)) k = some v) ∧
    (P1.updateProduct ev store =
      .ok ({ statusCode := 200,
             body := Json.stringify (.obj (setKey fields "productId" (.str ev.pathId))) },
           storePut store ev.pathId (.obj (setKey fields "productId" (.str ev.pathId)))) ∧
     lookupKey (setKey fields "productId" (.str ev.pathId)) k = some v) := by
  refine ⟨⟨?_, ?_⟩, ⟨?_, ?_⟩, ⟨?_, ?_⟩⟩
  · simp [P0.createProduct, hb, hvalid, spreadSet, spreadFields, dynamoPut,
      lookupKey_setKey_self, handleErrorsWith]
  · rw [lookupKey_setKey_ne fields "productId" k (.str g) hk]; exact hkv
  · simp [P0.updateProduct, P0.fetchProductById, hid, hb, hvalid, spreadSet, spreadFields,
      dynamoPut, lookupKey_setKey_self, handleErrorsWith]
  · rw [lookupKey_setKey_ne fields "productId" k (.str ev.pathId) hk]; exact hkv
  · simp [P1.updateProduct, P1.fetchProductById, hid, hb, spreadSet, spreadFields,
      dynamoPut, lookupKey_setKey_self, handleErrorsWith]
  · rw [lookupKey_setKey_ne fields "productId" k (.str ev.pathId) hk]; exact hkv

/-- Witness for C10: a valid body carrying the extra property `"color"`. -/
theorem extra_body_fields_preserved_witness :
    (P0.createProduct "uuid-1"
        { body := .ok (.obj [("name", .str "Pen"), ("description", .str "Blue pen"),
            ("price", .num 2), ("available", .bool true), ("color", .str "blue")]),
          pathId := "p1" }
        [("p1", .obj [("productId", .str "p1")])] =
      .ok ({ statusCode := 200,
             body := Json.stringify (.obj [("name", .str "Pen"), ("description", .str "Blue pen"),
               ("price", .num 2), ("available", .bool true), ("color", .str "blue"),
               ("productId", .str "uuid-1")]) },
           [("p1", .obj [("productId", .str "p1")]),
            ("uuid-1", .obj [("name", .str "Pen"), ("description", .str "Blue pen"),
               ("price", .num 2), ("available", .bool true), ("color", .str "blue"),
               ("productId", .str "uuid-1")])]) ∧
     lookupKey (setKey [("name", Json.str "Pen"), ("description", Json.str "Blue pen"),
        ("price", Json.num 2), ("available", Json.bool true), ("color", Json.str "blue")]
        "productId" (.str "uuid-1")) "color" = some (.str "blue")) ∧
    lookupKey (setKey [("name", Json.str "Pen"), ("description", Json.str "Blue pen"),
        ("price", Json.num 2), ("available", Json.bool true), ("color", Json.str "blue")]
        "productId" (.str "p1")) "color" = some (.str "blue") := by
  have h := extra_body_fields_preserved "uuid-1"
    { body := .ok (.obj [("name", .str "Pen"), ("description", .str "Blue pen"),
        ("price", .num 2), ("available", .bool true), ("color", .str "blue")]),
      pathId := "p1" }
    [("p1", .obj [("productId", .str "p1")])]
    [("name", .str "Pen"), ("description", .str "Blue pen"), ("price", .num 2),
     ("available", .bool true), ("color", .str "blue")]
    (.obj [("productId", .str "p1")]) "color" (.str "blue")
    rfl (by decide) rfl (by decide) rfl
  exact ⟨⟨h.1.1, h.1.2⟩, h.2.1.2⟩

/-- C4 counterexample: an unparseable body makes `handlers.ts`'s Create and
the `P1` variant's Update terminate with the propagated `SyntaxError` itself
— an unhandled fault, not a 400 response. -/
theorem parse_error_propagates_unhandled :
    Handlers.createProduct "g1" "g2"
        { body := .error "Unexpected token o in JSON at position 1", pathId := "" } [] =
      .error (.synErr "Unexpected token o in JSON at position 1") ∧
    P1.updateProduct
        { body := .error "Unexpected token o in JSON at position 1", pathId := "p1" }
        [("p1", .obj [("productId", .str "p1")])] =
      .error (.synErr "Unexpected token o in JSON at position 1") ∧
    P1.createProduct "g1"
        { body := .error "Unexpected token o in JSON at position 1", pathId := "" } [] =
      .error (.synErr "Unexpected token o in JSON at position 1") :=
  ⟨rfl, rfl, rfl⟩

/-- C4 as amended: in the yup-validated variant (`P0`) only, Create — and
Update, once the path id exists — turn an unparseable body into status 400
with a JSON error object whose message extends the parse diagnostic; in
`handlers.ts` and the `P1` variant the `SyntaxError` propagates unhandled. -/
theorem p0_parse_error_returns_400 (g : String) (ev : Event) (store : Store)
    (msg : String) (item : Json)
    (hb : ev.body = .error msg)
    (hid : storeGet store ev.pathId = some item) :
    P0.createProduct g ev store =
      .ok ({ statusCode := 400,
             body := Json.stringify (.obj [("error",
               .str ("Invalid request body format: " ++ msg))]) }, store) ∧
    P0.updateProduct ev store =
      .ok ({ statusCode := 400,
             body := Json.stringify (.obj [("error",
               .str ("Invalid request body format: " ++ msg))]) }, store) ∧
    (∃ pre, "Invalid request body format: " ++ msg = pre ++ msg) := by
  refine ⟨?_, ?_, ⟨"Invalid request body format: ", rfl⟩⟩
  · simp [P0.createProduct, hb, handleErrorsWith, P0.handleError]
  · simp [P0.updateProduct, P0.fetchProductById, hid, hb, handleErrorsWith, P0.handleError]

/-- Witness for the amended C4 at a concrete diagnostic and store. -/
theorem p0_parse_error_returns_400_witness :
    P0.createProduct "uuid-1"
        { body := .error "Unexpected end of JSON input", pathId := "p1" }
        [("p1", .obj [("productId", .str "p1")])] =
      .ok ({ statusCode := 400,
             body := Json.stringify (.obj [("error",
               .str ("Invalid request body format: " ++ "Unexpected end of JSON input"))]) },
           [("p1", .obj [("productId", .str "p1")])]) ∧
    P0.updateProduct
        { body := .error "Unexpected end of JSON input", pathId := "p1" }
        [("p1", .obj [("productId", .str "p1")])] =
      .ok ({ statusCode := 400,
             body := Json.stringify (.obj [("error",
               .str ("Invalid request body format: " ++ "Unexpected end of JSON input"))]) },
           [("p1", .obj [("productId", .str "p1")])]) ∧
    (∃ pre, "Invalid request body format: " ++ "Unexpected end of JSON input" =
      pre ++ "Unexpected end of JSON input") :=
  p0_parse_error_returns_400 "uuid-1"
    { body := .error "Unexpected end of JSON input", pathId := "p1" }
    [("p1", .obj [("productId", .str "p1")])]
    "Unexpected end of JSON input" (.obj [("productId", .str "p1")]) rfl rfl

/-- C1: the round-trip fails on `src/handlers.ts` — `createProduct` stores
the item under a second freshly generated uuid (`"id-b"`) while the response
record carries the first (`"id-a"`), so Get with the id from Create's
response finds nothing and answers 404 instead of the claimed 200 with the
created record.  (The single-generation variants `P0`/`P1` do satisfy the
round-trip; the spec itself calls double generation a defect.) -/
theorem handlers_create_get_roundtrip_fails :
    Handlers.createProduct "id-a" "id-b"
      { body := .ok (.obj [("name", .str "Chair"), ("description", .str "Wooden chair"),
          ("price", .num 49), ("available", .bool true)]), pathId := "" } [] =
      .ok ({ statusCode := 200,
             body := Json.stringify (.obj [("name", .str "Chair"),
               ("description", .str "Wooden chair"), ("price", .num 49),
               ("available", .bool true), ("productId", .str "id-a")]) },
           [("id-b", .obj [("name", .str "Chair"), ("description", .str "Wooden chair"),
               ("price", .num 49), ("available", .bool true), ("productId", .str "id-b")])]) ∧
    Handlers.getProduct { body := .error "no body", pathId := "id-a" }
        [("id-b", .obj [("name", .str "Chair"), ("description", .str "Wooden chair"),
            ("price", .num 49), ("available", .bool true), ("productId", .str "id-b")])] =
      .ok ({ statusCode := 404, body := notFoundBody },
           [("id-b", .obj [("name", .str "Chair"), ("description", .str "Wooden chair"),
               ("price", .num 49), ("available", .bool true), ("productId", .str "id-b")])]) :=
  ⟨rfl, rfl⟩
